import Mathlib

/-
  Shallow embedding of `src/view/droppable/connected-droppable.js` from
  react-beautiful-dnd: the connected-droppable selector that derives, for one
  droppable region, the view props record from the global drag-session state.

  Modelling choices:
  * Ids and type tags are strings, as in the source (flow type `Id = string`).
  * A `Placeholder` is an opaque geometry record; we model it by a numeric
    token, so structural equality of tokens stands in for JS reference
    equality of placeholder objects.
  * `state.phase` is a string and `state.isDragging` an independent boolean
    field, exactly the two properties the selector reads; in the source the
    flow union guarantees their correlation but the selector itself only ever
    consults these two fields.
  * JS property access on `undefined` (the missing-catalog-entry path, and
    `completed.critical` when `state.completed` is absent during
    DROP_ANIMATING) throws a TypeError; the embedding surfaces this as
    `Except.error`.
  * `Boolean(wasOver)` in `shouldCollapseHomeAfterDrag` is JS truthiness of a
    nullable string: false for null/undefined and for the empty string.
-/

namespace ConnectedDroppable

abbrev DraggableId := String

abbrev DroppableId := String

abbrev TypeId := String

abbrev Placeholder := Nat

structure DraggableDescriptor where
  id : DraggableId
  droppableId : DroppableId
deriving DecidableEq, Repr

structure DroppableDescriptor where
  id : DroppableId
  type : TypeId
deriving DecidableEq, Repr

structure Critical where
  draggable : DraggableDescriptor
  droppable : DroppableDescriptor
deriving DecidableEq, Repr

structure DraggableDimension where
  descriptor : DraggableDescriptor
  placeholder : Placeholder
deriving DecidableEq, Repr

structure DimensionMap where
  draggables : List (DraggableId × DraggableDimension)
deriving DecidableEq, Repr

structure Combine where
  draggableId : DraggableId
  droppableId : DroppableId
deriving DecidableEq, Repr

structure Merge where
  combine : Combine
deriving DecidableEq, Repr

structure DraggableLocation where
  droppableId : DroppableId
  index : Nat
deriving DecidableEq, Repr

structure DragImpact where
  destination : Option DraggableLocation
  merge : Option Merge
deriving DecidableEq, Repr

structure CompletedDrag where
  critical : Critical
  impact : DragImpact
deriving DecidableEq, Repr

structure State where
  phase : String
  isDragging : Bool
  critical : Critical
  dimensions : DimensionMap
  impact : DragImpact
  completed : Option CompletedDrag
deriving DecidableEq, Repr

structure OwnProps where
  droppableId : DroppableId
  type : TypeId
deriving DecidableEq, Repr

structure MapProps where
  isDraggingOver : Bool
  draggingOverWith : Option DraggableId
  draggingFromThisWith : Option DraggableId
  placeholder : Option Placeholder
  shouldAnimatePlaceholder : Bool
deriving DecidableEq, Repr

/-- Modelled from the spec: the Target Resolver
(`src/state/droppable/what-is-dragged-over.js`) is imported by the source file
but is not itself included under `src/`. Per the spec it reads whichever field
of the impact record names the currently hovered region (the destination of a
reorder, or the combine target) and returns null when nothing is targeted. -/
def whatIsDraggedOver (impact : DragImpact) : Option DroppableId :=
  match impact.destination with
  | some location => some location.droppableId
  | none =>
    match impact.merge with
    | some merge => some merge.combine.droppableId
    | none => none

def idle : MapProps :=
  { isDraggingOver := false
    draggingOverWith := none
    draggingFromThisWith := none
    placeholder := none
    shouldAnimatePlaceholder := true }

def idleWithoutAnimation : MapProps :=
  { idle with shouldAnimatePlaceholder := false }

def isMatchingType (type : TypeId) (critical : Critical) : Bool :=
  type == critical.droppable.type

/-- JS truthiness of a nullable id string: `Boolean(x)` is false for
null/undefined and for the empty string. -/
def truthyId : Option DroppableId → Bool
  | none => false
  | some s => !(s == "")

def shouldCollapseHomeAfterDrag (id : DroppableId) (completed : CompletedDrag) : Bool :=
  let wasOver : Option DroppableId := whatIsDraggedOver completed.impact
  if wasOver == some id && completed.impact.merge.isSome then
    true
  else if truthyId wasOver && wasOver != some id then
    true
  else
    false

/-- JS indexing `dimensions.draggables[critical.draggable.id]` yields
`undefined` when the key is absent; we return an `Option`. -/
def getDraggable (critical : Critical) (dimensions : DimensionMap) : Option DraggableDimension :=
  dimensions.draggables.lookup critical.draggable.id

/-- Value computed by the memoized `getDraggingOverMapProps` constructor. -/
def getDraggingOverMapProps (draggingOverWith : DraggableId)
    (draggingFromThisWith : Option DraggableId) (placeholder : Placeholder)
    (shouldAnimatePlaceholder : Bool) : MapProps :=
  { isDraggingOver := true
    draggingFromThisWith := draggingFromThisWith
    draggingOverWith := some draggingOverWith
    placeholder := some placeholder
    shouldAnimatePlaceholder := shouldAnimatePlaceholder }

/-- Value computed by the memoized `getHomeNotDraggedOverMapProps` constructor. -/
def getHomeNotDraggedOverMapProps (draggingFromThisWith : DraggableId)
    (placeholder : Placeholder) : MapProps :=
  { isDraggingOver := false
    draggingFromThisWith := some draggingFromThisWith
    draggingOverWith := none
    placeholder := some placeholder
    shouldAnimatePlaceholder := false }

/-- Cache-free reading of `getMapProps`: the value it computes. The memoized
version (`getMapPropsMemo` below) threads the per-instance caches. -/
def getMapProps (id : DroppableId) (draggable : DraggableDimension)
    (impact : DragImpact) : MapProps :=
  let isOver : Bool := whatIsDraggedOver impact == some id
  let isHome : Bool := draggable.descriptor.droppableId == id
  if isOver then
    getDraggingOverMapProps draggable.descriptor.id
      (if isHome then some draggable.descriptor.id else none)
      draggable.placeholder (!isHome)
  else if !isHome then
    idle
  else
    getHomeNotDraggedOverMapProps draggable.descriptor.id draggable.placeholder

/-- Cache-free reading of the selector: the value it computes for one state
and one region. `Except.error` marks the paths where the JS code would throw
a TypeError by dereferencing `undefined`. -/
def selector (state : State) (ownProps : OwnProps) : Except String MapProps :=
  let id : DroppableId := ownProps.droppableId
  let type : TypeId := ownProps.type
  if state.isDragging then
    if !isMatchingType type state.critical then
      Except.ok idle
    else
      match getDraggable state.critical state.dimensions with
      | none => Except.error "TypeError: cannot read property of undefined"
      | some draggable => Except.ok (getMapProps id draggable state.impact)
  else if state.phase == "DROP_ANIMATING" then
    match state.completed with
    | none => Except.error "TypeError: cannot read property of undefined"
    | some completed =>
      if !isMatchingType type completed.critical then
        Except.ok idle
      else
        match getDraggable completed.critical state.dimensions with
        | none => Except.error "TypeError: cannot read property of undefined"
        | some draggable => Except.ok (getMapProps id draggable completed.impact)
  else if state.phase == "IDLE" then
    match state.completed with
    | none => Except.ok idle
    | some completed =>
      if !isMatchingType type completed.critical then
        Except.ok idle
      else if !(completed.critical.droppable.id == id) then
        Except.ok idle
      else if shouldCollapseHomeAfterDrag id completed then
        Except.ok idle
      else
        Except.ok idleWithoutAnimation
  else
    Except.ok idle

/-
  Stateful model of `makeMapStateToProps`: each selector instance closes over
  two `memoizeOne` caches, one per result constructor. `memoizeOne` keeps only
  the last argument tuple and its result, and compares each new argument with
  the cached one by JS strict equality, which our token-based data model
  renders as structural equality. Object identity of the returned record is
  modelled by a numeric `ref` tag: the two module-level constants keep fixed
  tags, and every run of a constructor body allocates a fresh tag.
-/

structure OverArgs where
  draggingOverWith : DraggableId
  draggingFromThisWith : Option DraggableId
  placeholder : Placeholder
  shouldAnimatePlaceholder : Bool
deriving DecidableEq, Repr

structure HomeArgs where
  draggingFromThisWith : DraggableId
  placeholder : Placeholder
deriving DecidableEq, Repr

structure MapPropsObj where
  props : MapProps
  ref : Nat
deriving DecidableEq, Repr

structure SelectorState where
  overCache : Option (OverArgs × MapPropsObj)
  homeCache : Option (HomeArgs × MapPropsObj)
  nextRef : Nat
deriving DecidableEq, Repr

def idleObj : MapPropsObj :=
  { props := idle, ref := 0 }

def idleWithoutAnimationObj : MapPropsObj :=
  { props := idleWithoutAnimation, ref := 1 }

/-- A fresh selector instance: both `memoizeOne` caches empty. -/
def makeMapStateToProps : SelectorState :=
  { overCache := none, homeCache := none, nextRef := 2 }

def overValue (args : OverArgs) : MapProps :=
  getDraggingOverMapProps args.draggingOverWith args.draggingFromThisWith
    args.placeholder args.shouldAnimatePlaceholder

def homeValue (args : HomeArgs) : MapProps :=
  getHomeNotDraggedOverMapProps args.draggingFromThisWith args.placeholder

/-- The memoized `getDraggingOverMapProps`: last-value cache, fresh object on
a miss, cached object (same `ref`) on a hit. -/
def getDraggingOverMapPropsMemo (s : SelectorState) (args : OverArgs) :
    MapPropsObj × SelectorState :=
  match s.overCache with
  | some (cached, obj) =>
    if cached = args then
      (obj, s)
    else
      let fresh : MapPropsObj := { props := overValue args, ref := s.nextRef }
      (fresh, { s with overCache := some (args, fresh), nextRef := s.nextRef + 1 })
  | none =>
    let fresh : MapPropsObj := { props := overValue args, ref := s.nextRef }
    (fresh, { s with overCache := some (args, fresh), nextRef := s.nextRef + 1 })

/-- The memoized `getHomeNotDraggedOverMapProps`. -/
def getHomeNotDraggedOverMapPropsMemo (s : SelectorState) (args : HomeArgs) :
    MapPropsObj × SelectorState :=
  match s.homeCache with
  | some (cached, obj) =>
    if cached = args then
      (obj, s)
    else
      let fresh : MapPropsObj := { props := homeValue args, ref := s.nextRef }
      (fresh, { s with homeCache := some (args, fresh), nextRef := s.nextRef + 1 })
  | none =>
    let fresh : MapPropsObj := { props := homeValue args, ref := s.nextRef }
    (fresh, { s with homeCache := some (args, fresh), nextRef := s.nextRef + 1 })

/-- `getMapProps` threading the caches of one selector instance. -/
def getMapPropsMemo (s : SelectorState) (id : DroppableId)
    (draggable : DraggableDimension) (impact : DragImpact) :
    MapPropsObj × SelectorState :=
  let isOver : Bool := whatIsDraggedOver impact == some id
  let isHome : Bool := draggable.descriptor.droppableId == id
  if isOver then
    getDraggingOverMapPropsMemo s
      { draggingOverWith := draggable.descriptor.id
        draggingFromThisWith := if isHome then some draggable.descriptor.id else none
        placeholder := draggable.placeholder
        shouldAnimatePlaceholder := !isHome }
  else if !isHome then
    (idleObj, s)
  else
    getHomeNotDraggedOverMapPropsMemo s
      { draggingFromThisWith := draggable.descriptor.id
        placeholder := draggable.placeholder }

/-- One invocation of a selector instance: the returned object (or TypeError)
together with the instance's updated caches. -/
def selectorMemo (s : SelectorState) (state : State) (ownProps : OwnProps) :
    Except String MapPropsObj × SelectorState :=
  if state.isDragging then
    if !isMatchingType ownProps.type state.critical then
      (Except.ok idleObj, s)
    else
      match getDraggable state.critical state.dimensions with
      | none => (Except.error "TypeError: cannot read property of undefined", s)
      | some draggable =>
        let r := getMapPropsMemo s ownProps.droppableId draggable state.impact
        (Except.ok r.1, r.2)
  else if state.phase == "DROP_ANIMATING" then
    match state.completed with
    | none => (Except.error "TypeError: cannot read property of undefined", s)
    | some completed =>
      if !isMatchingType ownProps.type completed.critical then
        (Except.ok idleObj, s)
      else
        match getDraggable completed.critical state.dimensions with
        | none => (Except.error "TypeError: cannot read property of undefined", s)
        | some draggable =>
          let r := getMapPropsMemo s ownProps.droppableId draggable completed.impact
          (Except.ok r.1, r.2)
  else if state.phase == "IDLE" then
    match state.completed with
    | none => (Except.ok idleObj, s)
    | some completed =>
      if !isMatchingType ownProps.type completed.critical then
        (Except.ok idleObj, s)
      else if !(completed.critical.droppable.id == ownProps.droppableId) then
        (Except.ok idleObj, s)
      else if shouldCollapseHomeAfterDrag ownProps.droppableId completed then
        (Except.ok idleObj, s)
      else
        (Except.ok idleWithoutAnimationObj, s)
  else
    (Except.ok idleObj, s)

/-- Run one selector instance over a sequence of invocations. -/
def runSelector (s : SelectorState) : List (State × OwnProps) →
    List (Except String MapPropsObj) × SelectorState
  | [] => ([], s)
  | input :: rest =>
    let r := selectorMemo s input.1 input.2
    let rs := runSelector r.2 rest
    (r.1 :: rs.1, rs.2)

/-
  Concrete fixtures used by counterexamples and witnesses.
-/

def sampleCritical : Critical :=
  { draggable := { id := "item", droppableId := "A" }
    droppable := { id := "A", type := "T" } }

def sampleDimension : DraggableDimension :=
  { descriptor := { id := "item", droppableId := "A" }, placeholder := 7 }

def sampleDimensions : DimensionMap :=
  { draggables := [("item", sampleDimension)] }

def impactOverA : DragImpact :=
  { destination := some { droppableId := "A", index := 0 }, merge := none }

def impactOverB : DragImpact :=
  { destination := some { droppableId := "B", index := 0 }, merge := none }

def impactOverEmpty : DragImpact :=
  { destination := some { droppableId := "", index := 0 }, merge := none }

/-- C2 counterexample input: a completed drag whose resolved target is the
empty-string droppable id. -/
def emptyTargetCompleted : CompletedDrag :=
  { critical := sampleCritical, impact := impactOverEmpty }

/-- C2: the claim as stated is false: with a resolved target that is the
empty string (non-null and different from region id "B"),
`shouldCollapseHomeAfterDrag` returns false, because `Boolean(wasOver)` in the
source treats the empty string as falsy. -/
theorem shouldCollapseHomeAfterDrag_empty_target_counterexample :
    whatIsDraggedOver emptyTargetCompleted.impact = some "" ∧
    ("" : DroppableId) ≠ "B" ∧
    shouldCollapseHomeAfterDrag "B" emptyTargetCompleted = false := by
  refine ⟨rfl, by decide, by decide⟩

/-- C2 (amended): `shouldCollapseHomeAfterDrag` returns true iff either the
resolved target equals the region id and the impact carries a merge, or the
resolved target is a JS-truthy id (non-null and non-empty) different from the
region id. -/
theorem shouldCollapseHomeAfterDrag_iff (id : DroppableId) (completed : CompletedDrag) :
    shouldCollapseHomeAfterDrag id completed = true ↔
      ((whatIsDraggedOver completed.impact = some id ∧
          completed.impact.merge.isSome = true) ∨
       (∃ t, whatIsDraggedOver completed.impact = some t ∧ t ≠ "" ∧ t ≠ id)) := by
  simp only [shouldCollapseHomeAfterDrag]
  cases h : whatIsDraggedOver completed.impact with
  | none => simp [truthyId]
  | some t =>
    by_cases hm : completed.impact.merge.isSome = true
    · by_cases hid : t = id
      · subst hid
        simp [hm, truthyId]
      · simp only [beq_iff_eq, Option.some.injEq]
        simp only [hid, hm]
        by_cases he : t = ""
        · subst he
          simp [truthyId, hid]
        · simp [truthyId, he, hid]
    · simp only [beq_iff_eq, Option.some.injEq]
      by_cases hid : t = id
      · subst hid
        simp [hm, truthyId]
      · simp only [hid, hm]
        by_cases he : t = ""
        · subst he
          simp [truthyId, hid]
        · simp [truthyId, he, hid]

/-- C7 counterexample input: a non-dragging state carrying a phase tag outside
the recognized set. -/
def unknownPhaseState : State :=
  { phase := "FLUSHING"
    isDragging := false
    critical := sampleCritical
    dimensions := sampleDimensions
    impact := { destination := none, merge := none }
    completed := none }

/-- C7: the claim as stated is false: on a state with the unrecognized phase
tag "FLUSHING" the selector silently returns the idle record instead of
aborting. -/
theorem selector_unknown_phase_counterexample :
    unknownPhaseState.phase ≠ "DRAGGING" ∧
    unknownPhaseState.phase ≠ "DROP_ANIMATING" ∧
    unknownPhaseState.phase ≠ "IDLE" ∧
    selector unknownPhaseState { droppableId := "A", type := "T" } = Except.ok idle := by
  refine ⟨by decide, by decide, by decide, rfl⟩

/-- C7 (amended): for every non-dragging session state whose phase tag is
outside the recognized tags, the selector silently defaults to the idle
record; it does not abort. -/
theorem selector_unknown_phase_idle (st : State) (op : OwnProps)
    (h1 : st.isDragging = false) (h2 : st.phase ≠ "DRAGGING")
    (h3 : st.phase ≠ "DROP_ANIMATING") (h4 : st.phase ≠ "IDLE") :
    selector st op = Except.ok idle := by
  simp [selector, h1, h3, h4]

theorem selector_unknown_phase_idle_witness :
    selector unknownPhaseState { droppableId := "B", type := "T" } = Except.ok idle :=
  selector_unknown_phase_idle unknownPhaseState { droppableId := "B", type := "T" }
    rfl (by decide) (by decide) (by decide)

/-- C8: whenever the region's type does not match the (live or completed)
critical reference's droppable type, the selector returns the idle record, in
each of the three phases that consult the critical reference. -/
theorem selector_type_mismatch_idle (st : State) (op : OwnProps) :
    (st.isDragging = true → isMatchingType op.type st.critical = false →
      selector st op = Except.ok idle) ∧
    (∀ c : CompletedDrag, st.isDragging = false → st.phase = "DROP_ANIMATING" →
      st.completed = some c → isMatchingType op.type c.critical = false →
      selector st op = Except.ok idle) ∧
    (∀ c : CompletedDrag, st.isDragging = false → st.phase = "IDLE" →
      st.completed = some c → isMatchingType op.type c.critical = false →
      selector st op = Except.ok idle) := by
  refine ⟨?_, ?_, ?_⟩
  · intro h1 h2
    simp [selector, h1, h2]
  · intro c h1 h2 h3 h4
    simp [selector, h1, h2, h3, h4]
  · intro c h1 h2 h3 h4
    simp [selector, h1, h2, h3, h4]

theorem selector_type_mismatch_idle_witness :
    selector
      { phase := "DRAGGING", isDragging := true, critical := sampleCritical
        dimensions := sampleDimensions, impact := impactOverA, completed := none }
      { droppableId := "A", type := "OTHER" } = Except.ok idle :=
  (selector_type_mismatch_idle
      { phase := "DRAGGING", isDragging := true, critical := sampleCritical
        dimensions := sampleDimensions, impact := impactOverA, completed := none }
      { droppableId := "A", type := "OTHER" }).1 rfl (by decide)

/-- C10: when the `isDragging` flag is set, the selector's result is computed
exclusively from the live critical reference, dimension catalog and impact:
two dragging states agreeing on those three fields produce the same result,
whatever their phase tags and completed records are. -/
theorem selector_isDragging_ignores_phase (st st2 : State) (op : OwnProps)
    (h1 : st.isDragging = true) (h2 : st2.isDragging = true)
    (hc : st.critical = st2.critical) (hd : st.dimensions = st2.dimensions)
    (hi : st.impact = st2.impact) :
    selector st op = selector st2 op := by
  simp [selector, h1, h2, hc, hd, hi]

theorem selector_isDragging_ignores_phase_witness :
    selector
      { phase := "DROP_ANIMATING", isDragging := true, critical := sampleCritical
        dimensions := sampleDimensions, impact := impactOverA
        completed := some { critical := sampleCritical, impact := impactOverB } }
      { droppableId := "A", type := "T" } =
    selector
      { phase := "IDLE", isDragging := true, critical := sampleCritical
        dimensions := sampleDimensions, impact := impactOverA, completed := none }
      { droppableId := "A", type := "T" } :=
  selector_isDragging_ignores_phase _ _ _ rfl rfl rfl rfl rfl

/-- C1: in a live drag (and identically in DROP_ANIMATING, sourced from the
completed record), with matching type, when the resolved target of the impact
equals the region's id the selector returns the dragging-over record:
`isDraggingOver` true, `draggingOverWith` the dragged descriptor's id,
`draggingFromThisWith` that id exactly when the descriptor's origin region is
this region, `placeholder` the descriptor's placeholder, and
`shouldAnimatePlaceholder` the negation of being the origin. -/
theorem selector_dragging_over (st : State) (op : OwnProps) (d : DraggableDimension) :
    (st.isDragging = true →
      isMatchingType op.type st.critical = true →
      getDraggable st.critical st.dimensions = some d →
      whatIsDraggedOver st.impact = some op.droppableId →
      selector st op = Except.ok
        { isDraggingOver := true
          draggingOverWith := some d.descriptor.id
          draggingFromThisWith :=
            if d.descriptor.droppableId = op.droppableId then some d.descriptor.id else none
          placeholder := some d.placeholder
          shouldAnimatePlaceholder := !(d.descriptor.droppableId == op.droppableId) }) ∧
    (∀ c : CompletedDrag,
      st.isDragging = false →
      st.phase = "DROP_ANIMATING" →
      st.completed = some c →
      isMatchingType op.type c.critical = true →
      getDraggable c.critical st.dimensions = some d →
      whatIsDraggedOver c.impact = some op.droppableId →
      selector st op = Except.ok
        { isDraggingOver := true
          draggingOverWith := some d.descriptor.id
          draggingFromThisWith :=
            if d.descriptor.droppableId = op.droppableId then some d.descriptor.id else none
          placeholder := some d.placeholder
          shouldAnimatePlaceholder := !(d.descriptor.droppableId == op.droppableId) }) := by
  constructor
  · intro h1 h2 h3 h4
    simp [selector, getMapProps, getDraggingOverMapProps, h1, h2, h3, h4]
  · intro c h1 h2 h3 h4 h5 h6
    simp [selector, getMapProps, getDraggingOverMapProps, h1, h2, h3, h4, h5, h6]

theorem selector_dragging_over_witness :
    selector
      { phase := "DRAGGING", isDragging := true, critical := sampleCritical
        dimensions := sampleDimensions, impact := impactOverA, completed := none }
      { droppableId := "A", type := "T" } =
    Except.ok
      { isDraggingOver := true
        draggingOverWith := some "item"
        draggingFromThisWith := some "item"
        placeholder := some 7
        shouldAnimatePlaceholder := false } := by
  have h :=
    (selector_dragging_over
      { phase := "DRAGGING", isDragging := true, critical := sampleCritical
        dimensions := sampleDimensions, impact := impactOverA, completed := none }
      { droppableId := "A", type := "T" } sampleDimension).1 rfl (by decide) (by decide) rfl
  simpa [sampleDimension] using h

/-- C4: in a live drag (and identically in DROP_ANIMATING) with matching type,
when the region is not the resolved target: if it is the dragged descriptor's
origin region the selector returns the home-not-hovered record (not over,
`draggingFromThisWith` the dragged id, no over id, the descriptor's
placeholder, no placeholder animation); if it is neither target nor origin the
selector returns the idle record. -/
theorem selector_not_over (st : State) (op : OwnProps) (d : DraggableDimension) :
    (st.isDragging = true →
      isMatchingType op.type st.critical = true →
      getDraggable st.critical st.dimensions = some d →
      whatIsDraggedOver st.impact ≠ some op.droppableId →
      ((d.descriptor.droppableId = op.droppableId →
        selector st op = Except.ok
          { isDraggingOver := false
            draggingOverWith := none
            draggingFromThisWith := some d.descriptor.id
            placeholder := some d.placeholder
            shouldAnimatePlaceholder := false }) ∧
       (d.descriptor.droppableId ≠ op.droppableId →
        selector st op = Except.ok idle))) ∧
    (∀ c : CompletedDrag,
      st.isDragging = false →
      st.phase = "DROP_ANIMATING" →
      st.completed = some c →
      isMatchingType op.type c.critical = true →
      getDraggable c.critical st.dimensions = some d →
      whatIsDraggedOver c.impact ≠ some op.droppableId →
      ((d.descriptor.droppableId = op.droppableId →
        selector st op = Except.ok
          { isDraggingOver := false
            draggingOverWith := none
            draggingFromThisWith := some d.descriptor.id
            placeholder := some d.placeholder
            shouldAnimatePlaceholder := false }) ∧
       (d.descriptor.droppableId ≠ op.droppableId →
        selector st op = Except.ok idle))) := by
  constructor
  · intro h1 h2 h3 h4
    constructor
    · intro hhome
      simp [selector, getMapProps, getHomeNotDraggedOverMapProps, h1, h2, h3, h4, hhome]
    · intro hnot
      simp [selector, getMapProps, h1, h2, h3, h4, hnot]
  · intro c h1 h2 h3 h4 h5 h6
    constructor
    · intro hhome
      simp [selector, getMapProps, getHomeNotDraggedOverMapProps, h1, h2, h3, h4, h5, h6, hhome]
    · intro hnot
      simp [selector, getMapProps, h1, h2, h3, h4, h5, h6, hnot]

theorem selector_not_over_witness :
    selector
      { phase := "DRAGGING", isDragging := true, critical := sampleCritical
        dimensions := sampleDimensions, impact := impactOverB, completed := none }
      { droppableId := "A", type := "T" } =
    Except.ok
      { isDraggingOver := false
        draggingOverWith := none
        draggingFromThisWith := some "item"
        placeholder := some 7
        shouldAnimatePlaceholder := false } := by
  have h :=
    ((selector_not_over
      { phase := "DRAGGING", isDragging := true, critical := sampleCritical
        dimensions := sampleDimensions, impact := impactOverB, completed := none }
      { droppableId := "A", type := "T" } sampleDimension).1 rfl (by decide) (by decide)
      (by decide)).1 rfl
  simpa [sampleDimension] using h

/-- C3: in phase IDLE with a completed record of matching type: a region other
than the completed drag's origin gets the idle record; the origin region gets
the idle record when the collapse decision holds and the
`idleWithoutAnimation` record (same shape as idle except
`shouldAnimatePlaceholder := false`, and distinct from idle) when it does
not. -/
theorem selector_idle_completed (st : State) (op : OwnProps) (c : CompletedDrag)
    (h1 : st.isDragging = false) (h2 : st.phase = "IDLE") (h3 : st.completed = some c)
    (h4 : isMatchingType op.type c.critical = true) :
    (c.critical.droppable.id ≠ op.droppableId → selector st op = Except.ok idle) ∧
    (c.critical.droppable.id = op.droppableId →
      selector st op = Except.ok
        (if shouldCollapseHomeAfterDrag op.droppableId c then idle else idleWithoutAnimation) ∧
      idleWithoutAnimation = { idle with shouldAnimatePlaceholder := false } ∧
      idleWithoutAnimation ≠ idle) := by
  constructor
  · intro hnot
    simp [selector, h1, h2, h3, h4, hnot]
  · intro hhome
    refine ⟨?_, rfl, by decide⟩
    simp only [selector, h1, h2, h3, h4]
    simp [hhome]
    split <;> simp

theorem selector_idle_completed_witness :
    selector
      { phase := "IDLE", isDragging := false, critical := sampleCritical
        dimensions := sampleDimensions, impact := { destination := none, merge := none }
        completed := some { critical := sampleCritical, impact := impactOverA } }
      { droppableId := "A", type := "T" } = Except.ok idleWithoutAnimation := by
  have h :=
    ((selector_idle_completed
      { phase := "IDLE", isDragging := false, critical := sampleCritical
        dimensions := sampleDimensions, impact := { destination := none, merge := none }
        completed := some { critical := sampleCritical, impact := impactOverA } }
      { droppableId := "A", type := "T" }
      { critical := sampleCritical, impact := impactOverA }
      rfl rfl rfl (by decide)).2 (by decide)).1
  simpa [shouldCollapseHomeAfterDrag, whatIsDraggedOver, impactOverA, truthyId] using h

/-- C6: when an active session's critical reference names a draggable id with
no entry in the dimension catalog (and the region's type matches, so the
lookup is actually reached), the selector aborts with an error instead of
returning a record: the JS code dereferences the `undefined` lookup result and
throws. This holds both for a live drag and for the DROP_ANIMATING phase. -/
theorem selector_missing_draggable_error (st : State) (op : OwnProps) :
    (st.isDragging = true →
      isMatchingType op.type st.critical = true →
      getDraggable st.critical st.dimensions = none →
      selector st op = Except.error "TypeError: cannot read property of undefined") ∧
    (∀ c : CompletedDrag,
      st.isDragging = false →
      st.phase = "DROP_ANIMATING" →
      st.completed = some c →
      isMatchingType op.type c.critical = true →
      getDraggable c.critical st.dimensions = none →
      selector st op = Except.error "TypeError: cannot read property of undefined") := by
  constructor
  · intro h1 h2 h3
    simp [selector, h1, h2, h3]
  · intro c h1 h2 h3 h4 h5
    simp [selector, h1, h2, h3, h4, h5]

theorem selector_missing_draggable_error_witness :
    selector
      { phase := "DRAGGING", isDragging := true, critical := sampleCritical
        dimensions := { draggables := [] }, impact := impactOverA, completed := none }
      { droppableId := "A", type := "T" } =
    Except.error "TypeError: cannot read property of undefined" :=
  (selector_missing_draggable_error
      { phase := "DRAGGING", isDragging := true, critical := sampleCritical
        dimensions := { draggables := [] }, impact := impactOverA, completed := none }
      { droppableId := "A", type := "T" }).1 rfl (by decide) rfl

/-- C9 counterexample input: an IDLE state still carrying the completed drag
whose origin region is "A", with a same-region non-merge drop, queried for
region "A". -/
def idleHomeCompleted : CompletedDrag :=
  { critical := sampleCritical, impact := impactOverA }

def idleHomeState : State :=
  { phase := "IDLE"
    isDragging := false
    critical := sampleCritical
    dimensions := sampleDimensions
    impact := { destination := none, merge := none }
    completed := some idleHomeCompleted }

/-- C9: the claim as stated is false: in the IDLE-with-completed-record phase
the origin region receives `idleWithoutAnimation`, whose placeholder is null
although the completed critical descriptor's origin region id equals the
region's id (so "isDraggingOver or origin" holds while the placeholder is
null). -/
theorem selector_placeholder_invariant_counterexample :
    selector idleHomeState { droppableId := "A", type := "T" } =
      Except.ok idleWithoutAnimation ∧
    idleHomeState.completed = some idleHomeCompleted ∧
    idleHomeCompleted.critical.draggable.droppableId = "A" ∧
    idleWithoutAnimation.isDraggingOver = false ∧
    idleWithoutAnimation.placeholder = none := by
  refine ⟨rfl, rfl, rfl, rfl, rfl⟩

theorem getMapProps_draggingOverWith_iff (id : DroppableId)
    (d : DraggableDimension) (impact : DragImpact) :
    (getMapProps id d impact).draggingOverWith.isSome =
      (getMapProps id d impact).isDraggingOver := by
  simp only [getMapProps]
  split
  · simp [getDraggingOverMapProps]
  · split
    · simp [idle]
    · simp [getHomeNotDraggedOverMapProps]

theorem getMapProps_placeholder_iff (id : DroppableId)
    (d : DraggableDimension) (impact : DragImpact) :
    (getMapProps id d impact).placeholder.isSome =
      ((getMapProps id d impact).isDraggingOver || (d.descriptor.droppableId == id)) := by
  simp only [getMapProps]
  split
  · simp [getDraggingOverMapProps]
  · split
    · rename_i hnot
      simp only [Bool.not_eq_eq_eq_not, Bool.not_true] at hnot
      simp [idle, hnot]
    · rename_i hnot
      simp only [Bool.not_eq_eq_eq_not, Bool.not_true, Bool.not_eq_false] at hnot
      simp [getHomeNotDraggedOverMapProps, hnot]

theorem selector_ok_shape (st : State) (op : OwnProps) (m : MapProps)
    (h : selector st op = Except.ok m) :
    m = idle ∨ m = idleWithoutAnimation ∨
      ∃ id d impact, m = getMapProps id d impact := by
  simp only [selector] at h
  split at h
  · split at h
    · left
      simpa using h.symm
    · split at h
      · cases h
      · right; right
        exact ⟨_, _, _, by simpa using h.symm⟩
  · split at h
    · split at h
      · cases h
      · split at h
        · left
          simpa using h.symm
        · split at h
          · cases h
          · right; right
            exact ⟨_, _, _, by simpa using h.symm⟩
    · split at h
      · split at h
        · left
          simpa using h.symm
        · split at h
          · left
            simpa using h.symm
          · split at h
            · left
              simpa using h.symm
            · split at h
              · left
                simpa using h.symm
              · right; left
                simpa using h.symm
      · left
        simpa using h.symm

/-- C9 (amended): on every record the selector returns, `draggingOverWith` is
non-null exactly when `isDraggingOver` is true; and in the live-drag and
DROP_ANIMATING phases, when the catalog entry for the critical draggable
carries the critical descriptor itself, the placeholder is non-null exactly
when the region is the current target or the drag's origin. (The two other
phases return records with null placeholders, and the IDLE-with-completed
phase hands the origin region a null placeholder, so the placeholder half of
the claim is restricted to states with a live or settling drag.) -/
theorem selector_mapProps_invariants (st : State) (op : OwnProps) (m : MapProps) :
    (selector st op = Except.ok m →
      m.draggingOverWith.isSome = m.isDraggingOver) ∧
    (∀ d : DraggableDimension,
      st.isDragging = true →
      isMatchingType op.type st.critical = true →
      getDraggable st.critical st.dimensions = some d →
      d.descriptor = st.critical.draggable →
      selector st op = Except.ok m →
      m.placeholder.isSome =
        (m.isDraggingOver || (st.critical.draggable.droppableId == op.droppableId))) ∧
    (∀ c : CompletedDrag, ∀ d : DraggableDimension,
      st.isDragging = false →
      st.phase = "DROP_ANIMATING" →
      st.completed = some c →
      isMatchingType op.type c.critical = true →
      getDraggable c.critical st.dimensions = some d →
      d.descriptor = c.critical.draggable →
      selector st op = Except.ok m →
      m.placeholder.isSome =
        (m.isDraggingOver || (c.critical.draggable.droppableId == op.droppableId))) := by
  refine ⟨?_, ?_, ?_⟩
  · intro h
    rcases selector_ok_shape st op m h with hm | hm | ⟨id, d, impact, hm⟩
    · subst hm; decide
    · subst hm; decide
    · subst hm
      exact getMapProps_draggingOverWith_iff id d impact
  · intro d h1 h2 h3 hd h
    have hsel : selector st op = Except.ok (getMapProps op.droppableId d st.impact) := by
      simp [selector, h1, h2, h3]
    rw [hsel] at h
    have hm : m = getMapProps op.droppableId d st.impact := by
      simpa using h.symm
    subst hm
    rw [← hd]
    exact getMapProps_placeholder_iff op.droppableId d st.impact
  · intro c d h1 h2 h3 h4 h5 hd h
    have hsel : selector st op = Except.ok (getMapProps op.droppableId d c.impact) := by
      simp [selector, h1, h2, h3, h4, h5]
    rw [hsel] at h
    have hm : m = getMapProps op.droppableId d c.impact := by
      simpa using h.symm
    subst hm
    rw [← hd]
    exact getMapProps_placeholder_iff op.droppableId d c.impact

theorem selector_mapProps_invariants_witness :
    ({ isDraggingOver := false, draggingOverWith := none
       draggingFromThisWith := some "item", placeholder := some 7
       shouldAnimatePlaceholder := false } : MapProps).placeholder.isSome =
      (({ isDraggingOver := false, draggingOverWith := none
          draggingFromThisWith := some "item", placeholder := some 7
          shouldAnimatePlaceholder := false } : MapProps).isDraggingOver ||
        (sampleCritical.draggable.droppableId == "A")) :=
  (selector_mapProps_invariants
      { phase := "DRAGGING", isDragging := true, critical := sampleCritical
        dimensions := sampleDimensions, impact := impactOverB, completed := none }
      { droppableId := "A", type := "T" }
      { isDraggingOver := false, draggingOverWith := none
        draggingFromThisWith := some "item", placeholder := some 7
        shouldAnimatePlaceholder := false }).2.1 sampleDimension rfl (by decide) (by decide)
    rfl rfl

/-
  Memoization laws. `wfCaches` is the invariant that every cached object
  actually carries the props its constructor computes for the cached argument
  tuple; it holds of a fresh instance and is preserved by every invocation.
-/

def wfCaches (s : SelectorState) : Bool :=
  (match s.overCache with
   | none => true
   | some (a, o) => o.props == overValue a) &&
  (match s.homeCache with
   | none => true
   | some (a, o) => o.props == homeValue a)

theorem overMemo_props (s : SelectorState) (a : OverArgs) (h : wfCaches s = true) :
    ((getDraggingOverMapPropsMemo s a).1).props = overValue a := by
  cases hc : s.overCache with
  | none => simp [getDraggingOverMapPropsMemo, hc]
  | some p =>
    obtain ⟨ca, o⟩ := p
    by_cases heq : ca = a
    · subst heq
      have hwf : o.props = overValue ca := by
        simp only [wfCaches, Bool.and_eq_true, hc, beq_iff_eq] at h
        exact h.1
      simp [getDraggingOverMapPropsMemo, hc, hwf]
    · simp [getDraggingOverMapPropsMemo, hc, heq]

theorem overMemo_wf (s : SelectorState) (a : OverArgs) (h : wfCaches s = true) :
    wfCaches (getDraggingOverMapPropsMemo s a).2 = true := by
  cases hc : s.overCache with
  | none =>
    simp only [wfCaches, Bool.and_eq_true] at h
    simp only [getDraggingOverMapPropsMemo, hc]
    simp only [wfCaches, Bool.and_eq_true]
    exact ⟨by simp, h.2⟩
  | some p =>
    obtain ⟨ca, o⟩ := p
    by_cases heq : ca = a
    · subst heq
      simpa [getDraggingOverMapPropsMemo, hc] using h
    · simp only [wfCaches, Bool.and_eq_true] at h
      simp only [getDraggingOverMapPropsMemo, hc, heq, if_false]
      simp only [wfCaches, Bool.and_eq_true]
      exact ⟨by simp, h.2⟩

theorem homeMemo_props (s : SelectorState) (a : HomeArgs) (h : wfCaches s = true) :
    ((getHomeNotDraggedOverMapPropsMemo s a).1).props = homeValue a := by
  cases hc : s.homeCache with
  | none => simp [getHomeNotDraggedOverMapPropsMemo, hc]
  | some p =>
    obtain ⟨ca, o⟩ := p
    by_cases heq : ca = a
    · subst heq
      have hwf : o.props = homeValue ca := by
        simp only [wfCaches, Bool.and_eq_true, hc, beq_iff_eq] at h
        exact h.2
      simp [getHomeNotDraggedOverMapPropsMemo, hc, hwf]
    · simp [getHomeNotDraggedOverMapPropsMemo, hc, heq]

theorem homeMemo_wf (s : SelectorState) (a : HomeArgs) (h : wfCaches s = true) :
    wfCaches (getHomeNotDraggedOverMapPropsMemo s a).2 = true := by
  cases hc : s.homeCache with
  | none =>
    simp only [wfCaches, Bool.and_eq_true] at h
    simp only [getHomeNotDraggedOverMapPropsMemo, hc]
    simp only [wfCaches, Bool.and_eq_true]
    exact ⟨h.1, by simp⟩
  | some p =>
    obtain ⟨ca, o⟩ := p
    by_cases heq : ca = a
    · subst heq
      simpa [getHomeNotDraggedOverMapPropsMemo, hc] using h
    · simp only [wfCaches, Bool.and_eq_true] at h
      simp only [getHomeNotDraggedOverMapPropsMemo, hc, heq, if_false]
      simp only [wfCaches, Bool.and_eq_true]
      exact ⟨h.1, by simp⟩

theorem getMapPropsMemo_props (s : SelectorState) (id : DroppableId)
    (d : DraggableDimension) (impact : DragImpact) (h : wfCaches s = true) :
    ((getMapPropsMemo s id d impact).1).props = getMapProps id d impact := by
  simp only [getMapPropsMemo, getMapProps]
  split
  · rw [overMemo_props _ _ h]
    simp [overValue]
  · split
    · rfl
    · rw [homeMemo_props _ _ h]
      simp [homeValue]

theorem getMapPropsMemo_wf (s : SelectorState) (id : DroppableId)
    (d : DraggableDimension) (impact : DragImpact) (h : wfCaches s = true) :
    wfCaches (getMapPropsMemo s id d impact).2 = true := by
  simp only [getMapPropsMemo]
  split
  · exact overMemo_wf _ _ h
  · split
    · exact h
    · exact homeMemo_wf _ _ h

theorem selectorMemo_props (s : SelectorState) (st : State) (op : OwnProps)
    (h : wfCaches s = true) :
    Except.map MapPropsObj.props (selectorMemo s st op).1 = selector st op := by
  simp only [selectorMemo, selector]
  split
  · split
    · rfl
    · split
      · rfl
      · simp only [Except.map]
        rw [getMapPropsMemo_props _ _ _ _ h]
  · split
    · split
      · rfl
      · split
        · rfl
        · split
          · rfl
          · simp only [Except.map]
            rw [getMapPropsMemo_props _ _ _ _ h]
    · split
      · split
        · rfl
        · split
          · rfl
          · split
            · rfl
            · split
              · rfl
              · rfl
      · rfl

theorem selectorMemo_wf (s : SelectorState) (st : State) (op : OwnProps)
    (h : wfCaches s = true) :
    wfCaches (selectorMemo s st op).2 = true := by
  simp only [selectorMemo]
  split
  · split
    · exact h
    · split
      · exact h
      · exact getMapPropsMemo_wf _ _ _ _ h
  · split
    · split
      · exact h
      · split
        · exact h
        · split
          · exact h
          · exact getMapPropsMemo_wf _ _ _ _ h
    · split
      · split
        · exact h
        · split
          · exact h
          · split
            · exact h
            · split
              · exact h
              · exact h
      · exact h

theorem runSelector_props (inputs : List (State × OwnProps)) :
    ∀ s : SelectorState, wfCaches s = true →
      ((runSelector s inputs).1.map (Except.map MapPropsObj.props) =
        inputs.map (fun p => selector p.1 p.2)) ∧
      wfCaches (runSelector s inputs).2 = true := by
  induction inputs with
  | nil => intro s h; exact ⟨rfl, h⟩
  | cons hd tl ih =>
    intro s h
    have hwf2 : wfCaches (selectorMemo s hd.1 hd.2).2 = true := selectorMemo_wf _ _ _ h
    have htl := ih (selectorMemo s hd.1 hd.2).2 hwf2
    simp only [runSelector, List.map]
    exact ⟨by rw [selectorMemo_props _ _ _ h, htl.1], htl.2⟩

theorem overMemo_idem (s : SelectorState) (a : OverArgs) :
    getDraggingOverMapPropsMemo (getDraggingOverMapPropsMemo s a).2 a =
      getDraggingOverMapPropsMemo s a := by
  cases hc : s.overCache with
  | none => simp [getDraggingOverMapPropsMemo, hc]
  | some p =>
    obtain ⟨ca, o⟩ := p
    by_cases heq : ca = a
    · subst heq
      simp [getDraggingOverMapPropsMemo, hc]
    · simp [getDraggingOverMapPropsMemo, hc, heq]

theorem homeMemo_idem (s : SelectorState) (a : HomeArgs) :
    getHomeNotDraggedOverMapPropsMemo (getHomeNotDraggedOverMapPropsMemo s a).2 a =
      getHomeNotDraggedOverMapPropsMemo s a := by
  cases hc : s.homeCache with
  | none => simp [getHomeNotDraggedOverMapPropsMemo, hc]
  | some p =>
    obtain ⟨ca, o⟩ := p
    by_cases heq : ca = a
    · subst heq
      simp [getHomeNotDraggedOverMapPropsMemo, hc]
    · simp [getHomeNotDraggedOverMapPropsMemo, hc, heq]

theorem getMapPropsMemo_idem (s : SelectorState) (id : DroppableId)
    (d : DraggableDimension) (impact : DragImpact) :
    getMapPropsMemo (getMapPropsMemo s id d impact).2 id d impact =
      getMapPropsMemo s id d impact := by
  unfold getMapPropsMemo
  dsimp only
  split
  · rw [overMemo_idem]
  · split
    · rfl
    · rw [homeMemo_idem]

theorem selectorMemo_cases (st : State) (op : OwnProps) :
    (∃ r, (r = Except.ok idleObj ∨ r = Except.ok idleWithoutAnimationObj ∨
        r = Except.error "TypeError: cannot read property of undefined") ∧
      ∀ s, selectorMemo s st op = (r, s)) ∨
    (∃ d impact, ∀ s, selectorMemo s st op =
      (Except.ok (getMapPropsMemo s op.droppableId d impact).1,
        (getMapPropsMemo s op.droppableId d impact).2)) := by
  by_cases hd : st.isDragging = true
  · by_cases hm : isMatchingType op.type st.critical = true
    · cases hg : getDraggable st.critical st.dimensions with
      | none =>
        exact Or.inl ⟨_, Or.inr (Or.inr rfl), fun s => by simp [selectorMemo, hd, hm, hg]⟩
      | some d =>
        exact Or.inr ⟨d, st.impact, fun s => by simp [selectorMemo, hd, hm, hg]⟩
    · simp only [Bool.not_eq_true] at hm
      exact Or.inl ⟨_, Or.inl rfl, fun s => by simp [selectorMemo, hd, hm]⟩
  · simp only [Bool.not_eq_true] at hd
    by_cases hp : (st.phase == "DROP_ANIMATING") = true
    · cases hc : st.completed with
      | none =>
        exact Or.inl ⟨_, Or.inr (Or.inr rfl), fun s => by simp [selectorMemo, hd, hp, hc]⟩
      | some completed =>
        by_cases hm : isMatchingType op.type completed.critical = true
        · cases hg : getDraggable completed.critical st.dimensions with
          | none =>
            exact Or.inl ⟨_, Or.inr (Or.inr rfl),
              fun s => by simp [selectorMemo, hd, hp, hc, hm, hg]⟩
          | some d =>
            exact Or.inr ⟨d, completed.impact,
              fun s => by simp [selectorMemo, hd, hp, hc, hm, hg]⟩
        · simp only [Bool.not_eq_true] at hm
          exact Or.inl ⟨_, Or.inl rfl, fun s => by simp [selectorMemo, hd, hp, hc, hm]⟩
    · simp only [Bool.not_eq_true] at hp
      by_cases hi : (st.phase == "IDLE") = true
      · cases hc : st.completed with
        | none =>
          exact Or.inl ⟨_, Or.inl rfl, fun s => by simp [selectorMemo, hd, hp, hi, hc]⟩
        | some completed =>
          by_cases hm : isMatchingType op.type completed.critical = true
          · by_cases hh : (completed.critical.droppable.id == op.droppableId) = true
            · by_cases hs : shouldCollapseHomeAfterDrag op.droppableId completed = true
              · exact Or.inl ⟨_, Or.inl rfl,
                  fun s => by simp [selectorMemo, hd, hp, hi, hc, hm, hh, hs]⟩
              · simp only [Bool.not_eq_true] at hs
                exact Or.inl ⟨_, Or.inr (Or.inl rfl),
                  fun s => by simp [selectorMemo, hd, hp, hi, hc, hm, hh, hs]⟩
            · simp only [Bool.not_eq_true] at hh
              exact Or.inl ⟨_, Or.inl rfl,
                fun s => by simp [selectorMemo, hd, hp, hi, hc, hm, hh]⟩
          · simp only [Bool.not_eq_true] at hm
            exact Or.inl ⟨_, Or.inl rfl, fun s => by simp [selectorMemo, hd, hp, hi, hc, hm]⟩
      · simp only [Bool.not_eq_true] at hi
        exact Or.inl ⟨_, Or.inl rfl, fun s => by simp [selectorMemo, hd, hp, hi]⟩

theorem selectorMemo_idem (s : SelectorState) (st : State) (op : OwnProps) :
    selectorMemo (selectorMemo s st op).2 st op = selectorMemo s st op := by
  rcases selectorMemo_cases st op with ⟨r, _, hr⟩ | ⟨d, impact, hr⟩
  · rw [hr s]
    exact hr s
  · rw [hr s]
    rw [hr ((Except.ok (getMapPropsMemo s op.droppableId d impact).1,
      (getMapPropsMemo s op.droppableId d impact).2)).2]
    simp only
    rw [getMapPropsMemo_idem]

theorem overMemo_cacheAfter (s : SelectorState) (a : OverArgs) :
    (getDraggingOverMapPropsMemo s a).2.overCache =
      some (a, (getDraggingOverMapPropsMemo s a).1) := by
  cases hc : s.overCache with
  | none => simp [getDraggingOverMapPropsMemo, hc]
  | some p =>
    obtain ⟨ca, o⟩ := p
    by_cases heq : ca = a
    · subst heq
      simp [getDraggingOverMapPropsMemo, hc]
    · simp [getDraggingOverMapPropsMemo, hc, heq]

theorem overMemo_hit (s : SelectorState) (a : OverArgs) (o : MapPropsObj)
    (h : s.overCache = some (a, o)) :
    getDraggingOverMapPropsMemo s a = (o, s) := by
  simp [getDraggingOverMapPropsMemo, h]

theorem homeMemo_overCache (s : SelectorState) (a : HomeArgs) :
    (getHomeNotDraggedOverMapPropsMemo s a).2.overCache = s.overCache := by
  cases hc : s.homeCache with
  | none => simp [getHomeNotDraggedOverMapPropsMemo, hc]
  | some p =>
    obtain ⟨ca, o⟩ := p
    by_cases heq : ca = a
    · subst heq
      simp [getHomeNotDraggedOverMapPropsMemo, hc]
    · simp [getHomeNotDraggedOverMapPropsMemo, hc, heq]

/-- The argument tuple the over-constructor receives for one region and one
dragged dimension. -/
def overArgsOf (id : DroppableId) (d : DraggableDimension) : OverArgs :=
  { draggingOverWith := d.descriptor.id
    draggingFromThisWith :=
      if d.descriptor.droppableId == id then some d.descriptor.id else none
    placeholder := d.placeholder
    shouldAnimatePlaceholder := !(d.descriptor.droppableId == id) }

theorem getMapPropsMemo_flagTrue_cache (s : SelectorState) (id : DroppableId)
    (d : DraggableDimension) (impact : DragImpact) (hwf : wfCaches s = true)
    (hflag : ((getMapPropsMemo s id d impact).1).props.isDraggingOver = true) :
    (whatIsDraggedOver impact == some id) = true ∧
    (getMapPropsMemo s id d impact).2.overCache =
      some (overArgsOf id d, (getMapPropsMemo s id d impact).1) := by
  by_cases hov : (whatIsDraggedOver impact == some id) = true
  · refine ⟨hov, ?_⟩
    simp only [getMapPropsMemo, hov, if_true]
    exact overMemo_cacheAfter s (overArgsOf id d)
  · exfalso
    by_cases hhome : (d.descriptor.droppableId == id) = true
    · have hred : getMapPropsMemo s id d impact =
          getHomeNotDraggedOverMapPropsMemo s
            { draggingFromThisWith := d.descriptor.id, placeholder := d.placeholder } := by
        simp [getMapPropsMemo, hov, hhome]
      rw [hred] at hflag
      rw [homeMemo_props s _ hwf] at hflag
      simp [homeValue, getHomeNotDraggedOverMapProps] at hflag
    · simp only [Bool.not_eq_true] at hhome
      simp [getMapPropsMemo, hov, hhome, idleObj, idle] at hflag

theorem getMapPropsMemo_flagFalse_overCache (s : SelectorState) (id : DroppableId)
    (d : DraggableDimension) (impact : DragImpact) (hwf : wfCaches s = true)
    (hflag : ((getMapPropsMemo s id d impact).1).props.isDraggingOver = false) :
    (getMapPropsMemo s id d impact).2.overCache = s.overCache := by
  by_cases hov : (whatIsDraggedOver impact == some id) = true
  · exfalso
    simp only [getMapPropsMemo, hov, if_true] at hflag
    rw [overMemo_props s _ hwf] at hflag
    simp [overValue, getDraggingOverMapProps] at hflag
  · by_cases hhome : (d.descriptor.droppableId == id) = true
    · have hred : getMapPropsMemo s id d impact =
          getHomeNotDraggedOverMapPropsMemo s
            { draggingFromThisWith := d.descriptor.id, placeholder := d.placeholder } := by
        simp [getMapPropsMemo, hov, hhome]
      rw [hred]
      exact homeMemo_overCache s _
    · simp only [Bool.not_eq_true] at hhome
      simp [getMapPropsMemo, hov, hhome]

theorem getMapPropsMemo_hit (s : SelectorState) (id : DroppableId)
    (d : DraggableDimension) (impact : DragImpact) (o : MapPropsObj)
    (hov : (whatIsDraggedOver impact == some id) = true)
    (h : s.overCache = some (overArgsOf id d, o)) :
    getMapPropsMemo s id d impact = (o, s) := by
  simp only [getMapPropsMemo, hov, if_true]
  exact overMemo_hit s (overArgsOf id d) o h

/-- C5: memoization laws of one selector instance. (1) Idempotence: a second
invocation with the same inputs returns the very pair returned before — the
same output object and untouched caches. (2) Correctness across any call
sequence from a fresh instance: every returned object carries exactly the
props the cache-free selector computes, so no invocation ever returns a stale
value from either cache. (3) Cache independence: an over-outcome call followed
by a non-over-outcome call does not evict the over cache — repeating the first
input returns the identical cached object. -/
theorem selectorMemo_memoization :
    (∀ (s : SelectorState) (st : State) (op : OwnProps),
      selectorMemo (selectorMemo s st op).2 st op = selectorMemo s st op) ∧
    (∀ inputs : List (State × OwnProps),
      (runSelector makeMapStateToProps inputs).1.map (Except.map MapPropsObj.props) =
        inputs.map (fun p => selector p.1 p.2)) ∧
    (∀ (s : SelectorState) (st1 : State) (op1 : OwnProps) (st2 : State) (op2 : OwnProps)
        (o1 : MapPropsObj) (s1 : SelectorState) (o2 : MapPropsObj) (s2 : SelectorState),
      wfCaches s = true →
      selectorMemo s st1 op1 = (Except.ok o1, s1) →
      o1.props.isDraggingOver = true →
      selectorMemo s1 st2 op2 = (Except.ok o2, s2) →
      o2.props.isDraggingOver = false →
      (selectorMemo s2 st1 op1).1 = Except.ok o1) := by
  refine ⟨selectorMemo_idem, ?_, ?_⟩
  · intro inputs
    exact (runSelector_props inputs makeMapStateToProps rfl).1
  · intro s st1 op1 st2 op2 o1 s1 o2 s2 hwf h1 hflag1 h2 hflag2
    have hwf1 : wfCaches s1 = true := by
      have hw := selectorMemo_wf s st1 op1 hwf
      rw [h1] at hw
      exact hw
    rcases selectorMemo_cases st1 op1 with ⟨r, hrc, hr⟩ | ⟨d, impact, hr⟩
    · rw [hr s, Prod.mk.injEq] at h1
      rcases hrc with hrc | hrc | hrc
      · rw [hrc] at h1
        have ho1 : idleObj = o1 := Except.ok.inj h1.1
        rw [← ho1] at hflag1
        simp [idleObj, idle] at hflag1
      · rw [hrc] at h1
        have ho1 : idleWithoutAnimationObj = o1 := Except.ok.inj h1.1
        rw [← ho1] at hflag1
        simp [idleWithoutAnimationObj, idleWithoutAnimation, idle] at hflag1
      · rw [hrc] at h1
        exact Except.noConfusion h1.1
    · rw [hr s, Prod.mk.injEq] at h1
      have ho1 : (getMapPropsMemo s op1.droppableId d impact).1 = o1 := Except.ok.inj h1.1
      have hsnd : (getMapPropsMemo s op1.droppableId d impact).2 = s1 := h1.2
      have hflag1m : ((getMapPropsMemo s op1.droppableId d impact).1).props.isDraggingOver = true := by
        rw [ho1]
        exact hflag1
      have hov := (getMapPropsMemo_flagTrue_cache s op1.droppableId d impact hwf hflag1m).1
      have hcache := (getMapPropsMemo_flagTrue_cache s op1.droppableId d impact hwf hflag1m).2
      rw [ho1, hsnd] at hcache
      have hpres : s2.overCache = s1.overCache := by
        rcases selectorMemo_cases st2 op2 with ⟨r2, _, hr2⟩ | ⟨d2, imp2, hr2⟩
        · rw [hr2 s1, Prod.mk.injEq] at h2
          rw [← h2.2]
        · rw [hr2 s1, Prod.mk.injEq] at h2
          have ho2 : (getMapPropsMemo s1 op2.droppableId d2 imp2).1 = o2 := Except.ok.inj h2.1
          have hflag2m : ((getMapPropsMemo s1 op2.droppableId d2 imp2).1).props.isDraggingOver = false := by
            rw [ho2]
            exact hflag2
          rw [← h2.2]
          exact getMapPropsMemo_flagFalse_overCache s1 op2.droppableId d2 imp2 hwf1 hflag2m
      rw [hr s2]
      have hhit : getMapPropsMemo s2 op1.droppableId d impact = (o1, s2) :=
        getMapPropsMemo_hit s2 op1.droppableId d impact o1 hov (by rw [hpres]; exact hcache)
      rw [hhit]

def dragOverAState : State :=
  { phase := "DRAGGING", isDragging := true, critical := sampleCritical
    dimensions := sampleDimensions, impact := impactOverA, completed := none }

def dragOverBState : State :=
  { phase := "DRAGGING", isDragging := true, critical := sampleCritical
    dimensions := sampleDimensions, impact := impactOverB, completed := none }

def overObjW : MapPropsObj :=
  { props :=
      { isDraggingOver := true, draggingOverWith := some "item"
        draggingFromThisWith := some "item", placeholder := some 7
        shouldAnimatePlaceholder := false }
    ref := 2 }

def homeObjW : MapPropsObj :=
  { props :=
      { isDraggingOver := false, draggingOverWith := none
        draggingFromThisWith := some "item", placeholder := some 7
        shouldAnimatePlaceholder := false }
    ref := 3 }

def selStateW1 : SelectorState :=
  { overCache := some
      ({ draggingOverWith := "item", draggingFromThisWith := some "item"
         placeholder := 7, shouldAnimatePlaceholder := false }, overObjW)
    homeCache := none
    nextRef := 3 }

def selStateW2 : SelectorState :=
  { overCache := some
      ({ draggingOverWith := "item", draggingFromThisWith := some "item"
         placeholder := 7, shouldAnimatePlaceholder := false }, overObjW)
    homeCache := some
      ({ draggingFromThisWith := "item", placeholder := 7 }, homeObjW)
    nextRef := 4 }

theorem selectorMemo_memoization_witness :
    (selectorMemo selStateW2 dragOverAState { droppableId := "A", type := "T" }).1 =
      Except.ok overObjW :=
  selectorMemo_memoization.2.2 makeMapStateToProps dragOverAState
    { droppableId := "A", type := "T" } dragOverBState
    { droppableId := "A", type := "T" } overObjW selStateW1 homeObjW selStateW2
    rfl rfl rfl rfl rfl

end ConnectedDroppable
